import Mathlib

/-!
Verification development for the kokomemo location-bookmarking app.

The definitions below are shallow embeddings of the TypeScript source:

* `src/lib/maps.ts` — `openNavigation`, `reverseGeocode` (URL construction,
  address normalization, failure fallback);
* `src/pages/HomePage.tsx` (source parts 005/006/007) — the `filteredPlaces`
  category filter and sort pipeline;
* `src/pages/PlacePage.tsx` (source part 008) — `validate`/`handleSave`,
  `processWithGemini`;
* `src/pages/SearchPage.tsx` — the debounced search-suggestion flow;
* `src/hooks/useGoogleMaps.ts` / `src/types` — `DEFAULT_TABS`,
  `DEFAULT_SETTINGS` and the record types.

JavaScript numbers that only ever flow into template strings are represented
by their decimal string rendering (`JsNumber := String`); `createdAt`
timestamps, which the sort comparator reduces to `new Date(x).getTime()`,
are represented directly by that epoch-milliseconds value as a `Nat`.
-/

/-- JS numbers appearing in this code are only ever interpolated into
strings, so we represent such a number by its (JS `ToString`) decimal
rendering. -/
abbrev JsNumber := String

/-- `AppSettings.travelMode` enumeration from `src/types`:
`'driving' | 'transit' | 'walking'`. -/
inductive TravelMode where
  | driving
  | transit
  | walking
deriving DecidableEq, Repr

/-- The literal string of a travel mode, as it appears in the source. -/
def travelModeStr : TravelMode → String
  | .driving => "driving"
  | .transit => "transit"
  | .walking => "walking"

/-- `Place` record from `src/types` (part of `useGoogleMaps.ts` in this
snapshot): `id, name, memo, address, postalCode?, phoneNumber?, latitude,
longitude, tabId, createdAt, updatedAt`.  `createdAt`/`updatedAt` are kept
as the epoch-millisecond values the sort comparator extracts from the
stored ISO strings. -/
structure Place where
  id : String
  name : String
  memo : String
  address : String
  postalCode : Option String := none
  phoneNumber : Option String := none
  latitude : JsNumber
  longitude : JsNumber
  tabId : String
  createdAt : Nat
  updatedAt : Nat
deriving DecidableEq, Repr

/-- `Tab` record from `src/types`: `id, name, isCustom, order`. -/
structure Tab where
  id : String
  name : String
  isCustom : Bool
  order : Nat
deriving DecidableEq, Repr

/-- `AppSettings` record from `src/types`. -/
structure AppSettings where
  travelMode : TravelMode
deriving DecidableEq, Repr

/-- `DEFAULT_TABS` constant from `src/hooks/useGoogleMaps.ts` lines 175-181. -/
def DEFAULT_TABS : List Tab :=
  [ { id := "all", name := "すべて", isCustom := false, order := 0 },
    { id := "frequent", name := "よく行く", isCustom := false, order := 1 },
    { id := "planned", name := "今度行く", isCustom := false, order := 2 },
    { id := "revisit", name := "また来る", isCustom := false, order := 3 },
    { id := "rest", name := "休憩場所", isCustom := false, order := 4 } ]

/-- `DEFAULT_SETTINGS` constant from `src/hooks/useGoogleMaps.ts` lines 183-185. -/
def DEFAULT_SETTINGS : AppSettings := { travelMode := .driving }

/-- The category-filter step of `filteredPlaces` (HomePage, source parts
005 lines 33-39 and 007 lines 30-47):
`if (activeTabId !== 'all') result = result.filter((p) => p.tabId === activeTabId)`. -/
def filterByTab (activeTabId : String) (places : List Place) : List Place :=
  if activeTabId ≠ "all" then places.filter (fun p => p.tabId = activeTabId) else places

/-- The URL built by `openNavigation` in `src/lib/maps.ts` lines 4-11.  The
source interpolates the two coordinates and the travel mode into a fixed
template and passes the result to `window.open`; the default value of the
`travelMode` parameter is `'driving'`. -/
def openNavigation (latitude longitude : JsNumber)
    (travelMode : TravelMode := .driving) : String :=
  "https://www.google.com/maps/dir/?api=1&destination=" ++ latitude ++ "," ++
    longitude ++ "&travelmode=" ++ travelModeStr travelMode

/-- `SortOption` from `src/types`: `'name-asc' | 'created-desc' | 'created-asc'`. -/
inductive SortOption where
  | nameAsc
  | createdDesc
  | createdAsc
deriving DecidableEq, Repr

/-- The comparator of the sort step of `filteredPlaces` (HomePage, source
part 007 lines 49-63).  `name-asc` compares display names with
`a.name.localeCompare(b.name, 'ja')`, modelled by an abstract
integer-valued comparison `cmpName`; the two `created` policies compare the
`new Date(x).getTime()` values of the creation timestamps by integer
subtraction, exactly as the source does. -/
def placeCompare (cmpName : String → String → Int) :
    SortOption → Place → Place → Int
  | .nameAsc, a, b => cmpName a.name b.name
  | .createdAsc, a, b => (a.createdAt : Int) - (b.createdAt : Int)
  | .createdDesc, a, b => (b.createdAt : Int) - (a.createdAt : Int)

/-- `a` may stay before `b` under the JS comparator contract: the
comparator value is non-positive. -/
def placeLe (cmpName : String → String → Int) (opt : SortOption)
    (a b : Place) : Bool :=
  decide (placeCompare cmpName opt a b ≤ 0)

/-- The sort step of `filteredPlaces`: `[...result].sort(comparator)`.
`Array.prototype.sort` is required by ECMAScript to be stable, so it is
modelled by the stable `List.mergeSort`. -/
def sortPlaces (cmpName : String → String → Int) (opt : SortOption)
    (ps : List Place) : List Place :=
  ps.mergeSort (placeLe cmpName opt)

/-- Two places whose sort keys compare equal under the comparator. -/
def sameSortKey (cmpName : String → String → Int) (opt : SortOption)
    (a b : Place) : Bool :=
  placeLe cmpName opt a b && placeLe cmpName opt b a

/-- Characters that can occur in the JS `ToString` rendering of a finite
number: digits, sign, decimal point, exponent marker.  Every finite JS
number renders to a non-empty string of these characters. -/
def isJsNumberChar (c : Char) : Bool :=
  decide (48 ≤ c.toNat ∧ c.toNat ≤ 57) || decide (c = '-') || decide (c = '.') ||
    decide (c = 'e') || decide (c = '+')

/-- A non-empty string of JS finite-number characters. -/
def isJsNumberString (s : String) : Bool :=
  !s.isEmpty && s.toList.all isJsNumberChar

/-- Split a character list at the first occurrence of `c`, returning the
parts before and after it. -/
def breakAtChar (c : Char) : List Char → Option (List Char × List Char)
  | [] => none
  | x :: xs =>
    if x = c then some ([], xs)
    else
      match breakAtChar c xs with
      | none => none
      | some (a, b) => some (x :: a, b)

/-- Split a character list on every occurrence of `c`. -/
def splitOnChar (c : Char) : List Char → List (List Char)
  | [] => [[]]
  | x :: xs =>
    if x = c then [] :: splitOnChar c xs
    else
      match splitOnChar c xs with
      | [] => [[x]]
      | y :: ys => (x :: y) :: ys

/-- The query part of a URL: everything after the first question mark. -/
def queryOf (url : String) : List Char :=
  match breakAtChar '?' url.toList with
  | some p => p.2
  | none => []

/-- The key-value pairs of a URL query string: ampersand-separated
segments, each split at its first equals sign. -/
def queryPairs (url : String) : List (List Char × List Char) :=
  (splitOnChar '&' (queryOf url)).filterMap (breakAtChar '=')

/-- All values bound to `key` in the query string of `url`. -/
def paramValues (url : String) (key : String) : List String :=
  (queryPairs url).filterMap
    (fun p => if p.1 = key.toList then some (String.mk p.2) else none)

/-- Parse a `destination` parameter value back into its latitude and
longitude: the parts before and after the first comma. -/
def parseDestination (v : String) : Option (String × String) :=
  match breakAtChar ',' v.toList with
  | some p => some (String.mk p.1, String.mk p.2)
  | none => none

/-- A character allowed to appear literally in a URL: printable ASCII
other than space. -/
def isUrlChar (c : Char) : Bool :=
  decide (33 ≤ c.toNat ∧ c.toNat ≤ 126)

/-- Syntactic URL validity for the URLs this app builds: an `https` scheme,
something after the scheme, only printable ASCII, and, if a query string is
present, every ampersand-separated segment is a non-empty `key=value`
pair. -/
def urlValid (url : String) : Bool :=
  let l := url.toList
  (l.take 8 == "https://".toList) && decide (8 < l.length) &&
    l.all isUrlChar &&
    (match breakAtChar '?' l with
     | none => true
     | some p =>
       (splitOnChar '&' p.2).all
         (fun seg => decide (seg ≠ []) && (breakAtChar '=' seg).isSome))

/-- Whitespace as matched by the JS regex class backslash-s: ASCII
whitespace, NBSP, BOM, and the Unicode space separators. -/
def jsWhitespace (c : Char) : Bool :=
  decide (9 ≤ c.toNat ∧ c.toNat ≤ 13) || decide (c.toNat = 32) ||
    decide (c.toNat = 160) || decide (c.toNat = 0x1680) ||
    decide (0x2000 ≤ c.toNat ∧ c.toNat ≤ 0x200A) ||
    decide (c.toNat = 0x2028) || decide (c.toNat = 0x2029) ||
    decide (c.toNat = 0x202F) || decide (c.toNat = 0x205F) ||
    decide (c.toNat = 0x3000) || decide (c.toNat = 0xFEFF)

/-- Consume exactly `n` ASCII digits, returning the remainder, or `none` if
fewer than `n` digits lead the list. -/
def takeDigits : Nat → List Char → Option (List Char)
  | 0, l => some l
  | _ + 1, [] => none
  | n + 1, c :: cs => if c.isDigit then takeDigits n cs else none

/-- Consume an optional single occurrence of the character `c`. -/
def dropOptChar (c : Char) : List Char → List Char
  | [] => []
  | x :: xs => if x = c then xs else x :: xs

/-- The address normalization of `reverseGeocode` in `src/lib/maps.ts` line
94: `address.replace(...)` with the anchored pattern
country prefix, optional comma, optional postal mark, three digits,
optional hyphen, four digits, trailing whitespace.  Since each optional
token can never begin the following mandatory token, greedy matching
without backtracking coincides with the JS regex semantics, and a
non-global anchored `replace` deletes exactly the matched prefix. -/
def stripJapanPostalChars : List Char → Option (List Char)
  | c1 :: c2 :: rest =>
    if c1 = '日' ∧ c2 = '本' then
      (takeDigits 3 (dropOptChar '〒' (dropOptChar '、' rest))).bind (fun r3 =>
        (takeDigits 4 (dropOptChar '-' r3)).map (fun r4 =>
          r4.dropWhile jsWhitespace))
    else none
  | _ => none

/-- The string-level wrapper: on a match the matched prefix is deleted,
otherwise the address is returned unchanged. -/
def stripJapanPostal (s : String) : String :=
  match stripJapanPostalChars s.toList with
  | some r => String.mk r
  | none => s

/-- JS `String.prototype.trim`: removes leading and trailing whitespace
(the same character class as the regex whitespace class). -/
def jsTrim (s : String) : String :=
  String.mk (((s.toList.dropWhile jsWhitespace).reverse.dropWhile
    jsWhitespace).reverse)

/-- One entry of the geocoding response's `results` array, restricted to
the fields `reverseGeocode` reads: `formatted_address`, `types`, `name`. -/
structure GeoResult where
  formatted_address : Option String := none
  types : List String := []
  name : Option String := none
deriving DecidableEq, Repr

/-- The parsed geocoding response body: `status` and `results`. -/
structure GeocodeResponse where
  status : String
  results : List GeoResult
deriving DecidableEq, Repr

/-- `ReverseGeocodeResult` from `src/lib/maps.ts`: `address`, optional
`placeName`. -/
structure ReverseGeocodeResult where
  address : String
  placeName : Option String := none
deriving DecidableEq, Repr

/-- The place-name scan of `reverseGeocode` (`src/lib/maps.ts` lines
81-92): the first result tagged as a point of interest, establishment or
premise supplies `r.name || r.formatted_address?.split(',')[0]`; the JS
`||` falls through on an empty name. -/
def findPlaceName (rs : List GeoResult) : Option String :=
  match rs.find? (fun r =>
      r.types.contains "point_of_interest" ||
        r.types.contains "establishment" || r.types.contains "premise") with
  | none => none
  | some r =>
    if r.name.getD "" ≠ "" then some (r.name.getD "")
    else
      r.formatted_address.map (fun fa =>
        match breakAtChar ',' fa.toList with
        | some p => String.mk p.1
        | none => fa)

/-- `reverseGeocode` from `src/lib/maps.ts` lines 63-98.  The two awaited
steps (`fetch` and `response.json()`) are modelled by an `Except` value:
`.error` when the fetch rejects or the body fails to parse — the exception
then propagates out of the `async` function — and `.ok` with the parsed
body otherwise.  `latFixed`/`lngFixed` are the `toFixed(6)` renderings of
the two coordinates, which the source interpolates into the fallback
string. -/
def reverseGeocode (latFixed lngFixed : String)
    (fetched : Except Unit GeocodeResponse) :
    Except Unit ReverseGeocodeResult :=
  match fetched with
  | .error e => .error e
  | .ok data =>
    if data.status = "OK" ∧ data.results ≠ [] then
      .ok { address :=
              stripJapanPostal ((data.results.headD {}).formatted_address.getD ""),
            placeName := findPlaceName data.results }
    else
      .ok { address := latFixed ++ ", " ++ lngFixed }

/-- Outcome of the text-cleanup network call in `processWithGemini`
(PlacePage, source part 008 lines 208-254): the fetch or body parse
rejected (caught by the surrounding try/catch), the response was not ok
(the thrown error is caught by the same catch), or the body parsed and the
optional chain `data.candidates?.[0]?.content?.parts?.[0]?.text` produced
a string or `undefined`. -/
inductive GeminiOutcome where
  | failure
  | httpError
  | ok (text : Option String)
deriving DecidableEq, Repr

/-- `processWithGemini` from PlacePage (source part 008 lines 208-254):
with no API key the raw transcript is returned at once; otherwise the
cleaned text is `processedText || rawText`, where `processedText` is the
trimmed response text, and every failure path returns the raw
transcript. -/
def processWithGemini (apiKey rawText : String)
    (outcome : GeminiOutcome) : String :=
  if apiKey = "" then rawText
  else
    match outcome with
    | .failure => rawText
    | .httpError => rawText
    | .ok t =>
      match t.map jsTrim with
      | none => rawText
      | some s => if s = "" then rawText else s

/-- The form state of PlacePage that `handleSave` reads. -/
structure PlaceForm where
  name : String
  memo : String
  address : String
  postalCode : String
  latitude : JsNumber
  longitude : JsNumber
  tabId : String
deriving DecidableEq, Repr

/-- The field object passed to `savePlace`/`updatePlace` by `handleSave`. -/
structure SaveFields where
  name : String
  memo : String
  address : String
  postalCode : Option String
  latitude : JsNumber
  longitude : JsNumber
  tabId : String
deriving DecidableEq, Repr

/-- The storage call performed by `handleSave`. -/
inductive SaveAction where
  | save (fields : SaveFields)
  | update (id : String) (fields : SaveFields)
deriving DecidableEq, Repr

/-- `validate` from PlacePage (source part 008 lines 155-162): the error
recorded for the name field, or `none` when validation passes. -/
def validate (name : String) : Option String :=
  if jsTrim name = "" then some "場所の登録名を入力してください" else none

/-- `handleSave` from PlacePage (source part 008 lines 164-198), up to its
storage effect: the name-field error set by `validate` paired with the
storage call performed (`savePlace` for a new place, `updatePlace` with
the route id otherwise, nothing when validation fails or no id exists). -/
def handleSave (isNew : Bool) (id : Option String) (form : PlaceForm) :
    Option String × Option SaveAction :=
  match validate form.name with
  | some err => (some err, none)
  | none =>
    let fields : SaveFields :=
      { name := jsTrim form.name, memo := jsTrim form.memo,
        address := form.address,
        postalCode :=
          if jsTrim form.postalCode = "" then none
          else some (jsTrim form.postalCode),
        latitude := form.latitude, longitude := form.longitude,
        tabId := form.tabId }
    if isNew then (none, some (.save fields))
    else
      match id with
      | some i => (none, some (.update i fields))
      | none => (none, none)

/-- Modelled from the spec: the storage effect of the call emitted by
`handleSave` — `savePlace` appends a freshly identified record with
`createdAt = updatedAt = now` and `updatePlace` merges the fields onto the
matching record (`src/lib/storage.ts` is not part of this source snapshot;
spec §4.1 describes both operations).  Only the no-call case matters to
C8. -/
def applySaveAction (now : Nat) (newId : String)
    (action : Option SaveAction) (store : List Place) : List Place :=
  match action with
  | none => store
  | some (.save f) =>
    store ++ [{ id := newId, name := f.name, memo := f.memo,
                address := f.address, postalCode := f.postalCode,
                latitude := f.latitude, longitude := f.longitude,
                tabId := f.tabId, createdAt := now, updatedAt := now }]
  | some (.update i f) =>
    store.map (fun p =>
      if p.id = i then
        { p with name := f.name, memo := f.memo, address := f.address,
                 postalCode := f.postalCode, latitude := f.latitude,
                 longitude := f.longitude, tabId := f.tabId,
                 updatedAt := now }
      else p)

/-- Modelled from the spec: `getTabs` in `src/lib/storage.ts` (the storage
module is not part of this source snapshot) seeds the persisted tab
collection with the built-in set at first run ("built-ins seeded once at
first run", spec §3); the built-in set is the `DEFAULT_TABS` constant of
`src/hooks/useGoogleMaps.ts`.  `initialTabs` is therefore the persisted
tab collection of a fresh install. -/
def initialTabs : List Tab := DEFAULT_TABS

/-- The tab load step of PlacePage (source part 008 line 79):
`setTabs(getTabs().filter((t) => t.id !== 'all'))`. -/
def loadDataTabs (tabs : List Tab) : List Tab :=
  tabs.filter (fun t => t.id ≠ "all")

/-- A search suggestion as built by `searchPlaces` (SearchPage lines
167-171): main text, secondary text, place id. -/
structure Suggestion where
  text : String
  description : String
  placeId : String
deriving DecidableEq, Repr

/-- The SearchPage state that the suggestion flow touches: the input value,
the shown suggestions, the debounced call not yet issued, the issued
requests still in flight, and the loading flag. -/
structure SearchState where
  query : String
  suggestions : List Suggestion
  pending : Option String
  inFlight : List String
  isSearching : Bool
deriving DecidableEq, Repr

/-- SearchPage initial state. -/
def initialSearchState : SearchState :=
  { query := "", suggestions := [], pending := none, inFlight := [],
    isSearching := false }

/-- Events of the suggestion flow: the user edits the input
(`handleInputChange`), the 300 ms debounce timer fires (issuing
`searchPlaces` for the pending value), or an issued request completes with
its results. -/
inductive SearchEvent where
  | input (value : String)
  | fire
  | complete (reqInput : String) (results : List Suggestion)
deriving DecidableEq, Repr

/-- One step of the SearchPage suggestion flow (`handleInputChange`,
SearchPage lines 190-205, and `searchPlaces`, lines 151-180), with the
Places adapter ready and requests resolving successfully:
`input v` stores the value and replaces any pending debounced call
(`clearTimeout` + `setTimeout`), clearing the suggestions when the value is
blank; `fire` issues the pending request; `complete req results` is the
continuation after `await getPlacePredictions` — it stores the results and
clears the loading flag without comparing `req` to the current input. -/
def searchStep (s : SearchState) : SearchEvent → SearchState
  | .input v =>
    if jsTrim v ≠ "" then { s with query := v, pending := some v }
    else { s with query := v, pending := none, suggestions := [] }
  | .fire =>
    match s.pending with
    | none => s
    | some v =>
      { s with pending := none, inFlight := v :: s.inFlight,
               isSearching := true }
  | .complete reqInput results =>
    { s with suggestions := results, isSearching := false,
             inFlight := s.inFlight.erase reqInput }

/-- The spec scenario: search "Tokyo Tower", then search "Osaka Castle"
before the first request resolves; the first response arrives last. -/
def staleTrace : List SearchEvent :=
  [ .input "Tokyo Tower", .fire, .input "Osaka Castle", .fire,
    .complete "Tokyo Tower"
      [{ text := "東京タワー", description := "日本、東京都港区芝公園",
         placeId := "tokyo-tower" }] ]

theorem placeLe_trans (cmpName : String → String → Int)
    (htrans : ∀ a b c : String,
      cmpName a b ≤ 0 → cmpName b c ≤ 0 → cmpName a c ≤ 0)
    (opt : SortOption) :
    ∀ a b c : Place, placeLe cmpName opt a b = true →
      placeLe cmpName opt b c = true → placeLe cmpName opt a c = true := by
  cases opt <;> intro a b c h1 h2 <;>
    simp only [placeLe, placeCompare, decide_eq_true_iff] at h1 h2 ⊢
  · exact htrans _ _ _ h1 h2
  · omega
  · omega

theorem placeLe_total (cmpName : String → String → Int)
    (htotal : ∀ a b : String, cmpName a b ≤ 0 ∨ cmpName b a ≤ 0)
    (opt : SortOption) :
    ∀ a b : Place,
      (placeLe cmpName opt a b || placeLe cmpName opt b a) = true := by
  cases opt <;> intro a b <;>
    simp only [placeLe, placeCompare, Bool.or_eq_true, decide_eq_true_iff]
  · exact htotal _ _
  · omega
  · omega

/-- C3: For every name comparison that is a total preorder (which the
locale-aware `localeCompare` is) and every sort policy, the sort step of
`filteredPlaces` is idempotent, and it is a stable sort: for any reference
place `p`, the places whose sort key equals that of `p` appear in the
output in their original relative order (their subsequence is unchanged). -/
theorem sortPlaces_idempotent_stable (cmpName : String → String → Int)
    (htrans : ∀ a b c : String,
      cmpName a b ≤ 0 → cmpName b c ≤ 0 → cmpName a c ≤ 0)
    (htotal : ∀ a b : String, cmpName a b ≤ 0 ∨ cmpName b a ≤ 0)
    (opt : SortOption) (ps : List Place) (p : Place) :
    sortPlaces cmpName opt (sortPlaces cmpName opt ps) =
      sortPlaces cmpName opt ps ∧
    (sortPlaces cmpName opt ps).filter (fun q => sameSortKey cmpName opt q p) =
      ps.filter (fun q => sameSortKey cmpName opt q p) := by
  have t := placeLe_trans cmpName htrans opt
  have tot := placeLe_total cmpName htotal opt
  constructor
  · exact List.mergeSort_of_sorted (List.sorted_mergeSort t tot ps)
  · set le := placeLe cmpName opt with hle
    set pred : Place → Bool := fun q => sameSortKey cmpName opt q p with hpreddef
    have hpred : ∀ q, pred q = true → le q p = true ∧ le p q = true := by
      intro q h
      simpa [hpreddef, sameSortKey, Bool.and_eq_true, hle] using h
    have hmemc : ∀ q ∈ ps.filter pred, pred q = true :=
      fun q hq => (List.mem_filter.mp hq).2
    have hpair : (ps.filter pred).Pairwise (fun a b => le a b = true) :=
      List.pairwise_of_forall_mem_list (fun a ha b hb =>
        t a p b (hpred a (hmemc a ha)).1 (hpred b (hmemc b hb)).2)
    have hsub : (ps.filter pred).Sublist (sortPlaces cmpName opt ps) :=
      List.sublist_mergeSort t tot hpair (List.filter_sublist ps)
    have hself : (ps.filter pred).filter pred = ps.filter pred :=
      List.filter_eq_self.mpr hmemc
    have hfsub : (ps.filter pred).Sublist
        ((sortPlaces cmpName opt ps).filter pred) := by
      have h := List.Sublist.filter pred hsub
      rwa [hself] at h
    have hperm : ((sortPlaces cmpName opt ps).filter pred).Perm
        (ps.filter pred) :=
      (List.mergeSort_perm ps le).filter pred
    exact (hfsub.eq_of_length hperm.length_eq.symm).symm

/-- Witness for C3: the theorem applied to a concrete comparator (the
constant zero comparison, trivially a total preorder), the name-ascending
policy, and a concrete two-element place list. -/
theorem sortPlaces_idempotent_stable_witness :
    (∀ a b c : String, (fun _ _ => (0 : Int)) a b ≤ 0 →
      (fun _ _ => (0 : Int)) b c ≤ 0 → (fun _ _ => (0 : Int)) a c ≤ 0) ∧
    (∀ a b : String,
      (fun _ _ => (0 : Int)) a b ≤ 0 ∨ (fun _ _ => (0 : Int)) b a ≤ 0) ∧
    (sortPlaces (fun _ _ => (0 : Int)) .nameAsc
        (sortPlaces (fun _ _ => (0 : Int)) .nameAsc
          [{ id := "1", name := "b", memo := "", address := "",
             latitude := "35", longitude := "139", tabId := "frequent",
             createdAt := 2, updatedAt := 2 },
           { id := "2", name := "a", memo := "", address := "",
             latitude := "34", longitude := "135", tabId := "planned",
             createdAt := 1, updatedAt := 1 }]) =
      sortPlaces (fun _ _ => (0 : Int)) .nameAsc
        [{ id := "1", name := "b", memo := "", address := "",
           latitude := "35", longitude := "139", tabId := "frequent",
           createdAt := 2, updatedAt := 2 },
         { id := "2", name := "a", memo := "", address := "",
           latitude := "34", longitude := "135", tabId := "planned",
           createdAt := 1, updatedAt := 1 }] ∧
    (sortPlaces (fun _ _ => (0 : Int)) .nameAsc
        [{ id := "1", name := "b", memo := "", address := "",
           latitude := "35", longitude := "139", tabId := "frequent",
           createdAt := 2, updatedAt := 2 },
         { id := "2", name := "a", memo := "", address := "",
           latitude := "34", longitude := "135", tabId := "planned",
           createdAt := 1, updatedAt := 1 }]).filter
        (fun q => sameSortKey (fun _ _ => (0 : Int)) .nameAsc q
          { id := "1", name := "b", memo := "", address := "",
            latitude := "35", longitude := "139", tabId := "frequent",
            createdAt := 2, updatedAt := 2 }) =
      List.filter
        (fun q => sameSortKey (fun _ _ => (0 : Int)) .nameAsc q
          { id := "1", name := "b", memo := "", address := "",
            latitude := "35", longitude := "139", tabId := "frequent",
            createdAt := 2, updatedAt := 2 })
        [{ id := "1", name := "b", memo := "", address := "",
           latitude := "35", longitude := "139", tabId := "frequent",
           createdAt := 2, updatedAt := 2 },
         { id := "2", name := "a", memo := "", address := "",
           latitude := "34", longitude := "135", tabId := "planned",
           createdAt := 1, updatedAt := 1 }]) :=
  ⟨fun _ _ _ h _ => h, fun _ _ => Or.inl (le_refl 0),
    sortPlaces_idempotent_stable (fun _ _ => (0 : Int))
      (fun _ _ _ h _ => h) (fun _ _ => Or.inl (le_refl 0)) .nameAsc _ _⟩

theorem breakAtChar_of_not_mem {c : Char} {l : List Char} (h : c ∉ l) :
    breakAtChar c l = none := by
  induction l with
  | nil => rfl
  | cons x xs ih =>
    simp only [List.mem_cons, not_or] at h
    simp [breakAtChar, Ne.symm h.1, ih h.2]

theorem breakAtChar_append {c : Char} {l₁ : List Char} (h : c ∉ l₁)
    (l₂ : List Char) : breakAtChar c (l₁ ++ c :: l₂) = some (l₁, l₂) := by
  induction l₁ with
  | nil => simp [breakAtChar]
  | cons x xs ih =>
    simp only [List.mem_cons, not_or] at h
    simp [breakAtChar, Ne.symm h.1, ih h.2]

theorem splitOnChar_ne_nil (c : Char) (l : List Char) :
    splitOnChar c l ≠ [] := by
  induction l with
  | nil => simp [splitOnChar]
  | cons x xs ih =>
    by_cases hx : x = c
    · simp [splitOnChar, hx]
    · simp only [splitOnChar, if_neg hx]
      cases hs : splitOnChar c xs with
      | nil => simp
      | cons y ys => simp

theorem splitOnChar_of_not_mem {c : Char} {l : List Char} (h : c ∉ l) :
    splitOnChar c l = [l] := by
  induction l with
  | nil => rfl
  | cons x xs ih =>
    simp only [List.mem_cons, not_or] at h
    simp [splitOnChar, Ne.symm h.1, ih h.2]

theorem splitOnChar_append {c : Char} {l₁ : List Char} (h : c ∉ l₁)
    (l₂ : List Char) :
    splitOnChar c (l₁ ++ c :: l₂) = l₁ :: splitOnChar c l₂ := by
  induction l₁ with
  | nil => simp [splitOnChar]
  | cons x xs ih =>
    simp only [List.mem_cons, not_or] at h
    simp only [List.cons_append, splitOnChar, if_neg (Ne.symm h.1), List.append_eq]
    rw [ih h.2]

theorem string_toList_append (a b : String) :
    (a ++ b).toList = a.toList ++ b.toList := rfl

theorem jsNumberChar_facts {c : Char} (h : isJsNumberChar c = true) :
    isUrlChar c = true ∧ c ≠ '&' ∧ c ≠ '=' ∧ c ≠ '?' ∧ c ≠ ',' := by
  simp only [isJsNumberChar, Bool.or_eq_true, decide_eq_true_iff] at h
  rcases h with ((((h | h) | h) | h) | h)
  · refine ⟨by simp only [isUrlChar, decide_eq_true_iff]; omega, ?_, ?_, ?_, ?_⟩ <;>
      (intro he; subst he; exact absurd h (by decide))
  all_goals subst h
  all_goals exact ⟨by decide, by decide, by decide, by decide, by decide⟩

theorem jsNumberString_facts {s : String} (h : isJsNumberString s = true) :
    ∀ c ∈ s.toList, isJsNumberChar c = true := by
  simp only [isJsNumberString, Bool.and_eq_true, List.all_eq_true] at h
  exact fun c hc => h.2 c hc

theorem travelModeStr_no_amp (m : TravelMode) :
    '&' ∉ (travelModeStr m).toList := by
  cases m <;> decide

theorem travelModeStr_urlChars (m : TravelMode) :
    (travelModeStr m).toList.all isUrlChar = true := by
  cases m <;> decide

/-- Decomposition of the navigation URL into its scheme/path prefix, the
query separator, and the three query segments. -/
theorem openNavigation_toList (lat lng : JsNumber) (m : TravelMode) :
    (openNavigation lat lng m).toList =
      "https://www.google.com/maps/dir/".toList ++ '?' ::
        ("api=1".toList ++ '&' ::
          (("destination=".toList ++ (lat.toList ++ ',' :: lng.toList)) ++ '&' ::
            ("travelmode=".toList ++ (travelModeStr m).toList))) := by
  have hbase : ("https://www.google.com/maps/dir/?api=1&destination=" : String).toList =
      "https://www.google.com/maps/dir/".toList ++ '?' ::
        ("api=1".toList ++ '&' :: "destination=".toList) := by decide
  have hamp : ("&travelmode=" : String).toList = '&' :: "travelmode=".toList := by
    decide
  simp only [openNavigation, string_toList_append, hbase, hamp]
  simp [List.append_assoc]

/-- C1: For all finite coordinates (rendered as JS number strings) and every
travel mode, the URL built by `openNavigation` is syntactically valid,
carries the two coordinates as its unique `destination=<lat>,<lng>` query
parameter, carries exactly one `travelmode` parameter whose value is the
given mode, and parsing the destination value back yields the same
coordinate pair. -/
theorem openNavigation_url_spec (lat lng : JsNumber) (m : TravelMode)
    (hlat : isJsNumberString lat = true) (hlng : isJsNumberString lng = true) :
    urlValid (openNavigation lat lng m) = true ∧
    paramValues (openNavigation lat lng m) "destination" = [lat ++ "," ++ lng] ∧
    paramValues (openNavigation lat lng m) "travelmode" = [travelModeStr m] ∧
    parseDestination (lat ++ "," ++ lng) = some (lat, lng) := by
  have hlatc := jsNumberString_facts hlat
  have hlngc := jsNumberString_facts hlng
  have hurl := openNavigation_toList lat lng m
  have hseg2amp :
      '&' ∉ "destination=".toList ++ (lat.toList ++ ',' :: lng.toList) := by
    intro hm
    simp only [List.mem_append, List.mem_cons] at hm
    rcases hm with h | (h | (h | h))
    · exact absurd h (by decide)
    · exact (jsNumberChar_facts (hlatc _ h)).2.1 rfl
    · exact absurd h (by decide)
    · exact (jsNumberChar_facts (hlngc _ h)).2.1 rfl
  have hseg3amp : '&' ∉ "travelmode=".toList ++ (travelModeStr m).toList := by
    intro hm
    rcases List.mem_append.mp hm with h | h
    · exact absurd h (by decide)
    · exact travelModeStr_no_amp m h
  have hsplitQ : splitOnChar '&'
      ("api=1".toList ++ '&' ::
        (("destination=".toList ++ (lat.toList ++ ',' :: lng.toList)) ++ '&' ::
          ("travelmode=".toList ++ (travelModeStr m).toList))) =
      ["api=1".toList,
       "destination=".toList ++ (lat.toList ++ ',' :: lng.toList),
       "travelmode=".toList ++ (travelModeStr m).toList] := by
    rw [splitOnChar_append (by decide) _, splitOnChar_append hseg2amp _,
      splitOnChar_of_not_mem hseg3amp]
  have hp1 : breakAtChar '=' "api=1".toList =
      some ("api".toList, "1".toList) := by decide
  have hp2 : breakAtChar '='
      ("destination=".toList ++ (lat.toList ++ ',' :: lng.toList)) =
      some ("destination".toList, lat.toList ++ ',' :: lng.toList) := by
    rw [show ("destination=" : String).toList =
        "destination".toList ++ ['='] from by decide,
      List.append_assoc, List.singleton_append]
    exact breakAtChar_append (by decide) _
  have hp3 : breakAtChar '='
      ("travelmode=".toList ++ (travelModeStr m).toList) =
      some ("travelmode".toList, (travelModeStr m).toList) := by
    rw [show ("travelmode=" : String).toList =
        "travelmode".toList ++ ['='] from by decide,
      List.append_assoc, List.singleton_append]
    exact breakAtChar_append (by decide) _
  have hquery : queryOf (openNavigation lat lng m) =
      "api=1".toList ++ '&' ::
        (("destination=".toList ++ (lat.toList ++ ',' :: lng.toList)) ++ '&' ::
          ("travelmode=".toList ++ (travelModeStr m).toList)) := by
    unfold queryOf
    rw [hurl, breakAtChar_append (by decide) _]
  have hpairs : queryPairs (openNavigation lat lng m) =
      [("api".toList, "1".toList),
       ("destination".toList, lat.toList ++ ',' :: lng.toList),
       ("travelmode".toList, (travelModeStr m).toList)] := by
    unfold queryPairs
    rw [hquery, hsplitQ, List.filterMap_cons, hp1, List.filterMap_cons, hp2,
      List.filterMap_cons, hp3, List.filterMap_nil]
  have hdata : (lat ++ "," ++ lng).toList = lat.toList ++ ',' :: lng.toList := by
    simp only [string_toList_append]
    simp [List.append_assoc]
  refine ⟨?_, ?_, ?_, ?_⟩
  · -- validity
    simp only [urlValid]
    rw [hurl, breakAtChar_append (by decide) _]
    simp only [Bool.and_eq_true]
    refine ⟨⟨⟨?_, ?_⟩, ?_⟩, ?_⟩
    · rw [List.take_append_of_le_length (by decide)]
      decide
    · simp only [decide_eq_true_iff, List.length_append, List.length_cons]
      have h32 : ("https://www.google.com/maps/dir/".toList).length = 32 := by
        decide
      omega
    · simp only [List.all_append, List.all_cons, Bool.and_eq_true]
      and_intros <;>
        first
          | decide
          | exact List.all_eq_true.mpr
              (fun c hc => (jsNumberChar_facts (hlatc c hc)).1)
          | exact List.all_eq_true.mpr
              (fun c hc => (jsNumberChar_facts (hlngc c hc)).1)
          | exact travelModeStr_urlChars m
    · rw [hsplitQ]
      simp only [List.all_cons, List.all_nil, Bool.and_eq_true]
      refine ⟨by decide, ⟨?_, ?_⟩, ⟨?_, ?_⟩, trivial⟩
      · simp only [decide_eq_true_iff]
        intro h
        rw [List.append_eq_nil] at h
        exact absurd h.1 (by decide)
      · rw [hp2]; rfl
      · simp only [decide_eq_true_iff]
        intro h
        rw [List.append_eq_nil] at h
        exact absurd h.1 (by decide)
      · rw [hp3]; rfl
  · -- unique destination parameter
    unfold paramValues
    rw [hpairs, List.filterMap_cons,
      if_neg (by decide : ¬(("api" : String).toList = ("destination" : String).toList)),
      List.filterMap_cons, if_pos rfl, List.filterMap_cons,
      if_neg (by decide : ¬(("travelmode" : String).toList = ("destination" : String).toList)),
      List.filterMap_nil]
    have : String.mk (lat.toList ++ ',' :: lng.toList) = lat ++ "," ++ lng := by
      rw [← hdata]
      rfl
    rw [this]
  · -- unique travelmode parameter
    unfold paramValues
    rw [hpairs, List.filterMap_cons,
      if_neg (by decide : ¬(("api" : String).toList = ("travelmode" : String).toList)),
      List.filterMap_cons,
      if_neg (by decide : ¬(("destination" : String).toList = ("travelmode" : String).toList)),
      List.filterMap_cons, if_pos rfl, List.filterMap_nil]
    rfl
  · -- round-trip of the destination value
    unfold parseDestination
    rw [hdata,
      breakAtChar_append
        (fun hm => (jsNumberChar_facts (hlatc _ hm)).2.2.2.2 rfl) _]
    rfl

/-- Witness for C1 at concrete coordinates and mode. -/
theorem openNavigation_url_spec_witness :
    isJsNumberString "35.6812" = true ∧ isJsNumberString "139.7671" = true ∧
    (urlValid (openNavigation "35.6812" "139.7671" .transit) = true ∧
     paramValues (openNavigation "35.6812" "139.7671" .transit) "destination" =
       ["35.6812" ++ "," ++ "139.7671"] ∧
     paramValues (openNavigation "35.6812" "139.7671" .transit) "travelmode" =
       [travelModeStr .transit] ∧
     parseDestination ("35.6812" ++ "," ++ "139.7671") =
       some ("35.6812", "139.7671")) :=
  ⟨by decide, by decide,
    openNavigation_url_spec "35.6812" "139.7671" .transit (by decide) (by decide)⟩

/-- C10: Invoking the navigation link builder without an explicit travel mode
builds the deep link with `travelmode=driving`: `openNavigation lat lng`
produces the same URL as `openNavigation lat lng .driving`. -/
theorem openNavigation_default_driving (lat lng : JsNumber) :
    openNavigation lat lng = openNavigation lat lng .driving := rfl

/-- C2: Filtering by the sentinel category `"all"` returns the input
sequence unchanged, and filtering by any other category identifier returns
exactly the places whose `tabId` equals the argument, as an
order-preserving subsequence of the input. -/
theorem filterByTab_spec (c : String) (ps : List Place) :
    filterByTab "all" ps = ps ∧
    (c ≠ "all" → filterByTab c ps = ps.filter (fun p => p.tabId = c)) ∧
    (filterByTab c ps).Sublist ps := by
  refine ⟨by simp [filterByTab], fun h => by simp [filterByTab, h], ?_⟩
  by_cases h : c = "all"
  · simp [filterByTab, h]
  · simp [filterByTab, h]

/-- Witness for C2 at a concrete category and place list. -/
theorem filterByTab_spec_witness :
    ("frequent" : String) ≠ "all" ∧
    (filterByTab "all"
        [{ id := "1", name := "a", memo := "", address := "",
           latitude := "35", longitude := "139", tabId := "frequent",
           createdAt := 5, updatedAt := 5 }] =
      [{ id := "1", name := "a", memo := "", address := "",
         latitude := "35", longitude := "139", tabId := "frequent",
         createdAt := 5, updatedAt := 5 }] ∧
    (("frequent" : String) ≠ "all" →
      filterByTab "frequent"
          [{ id := "1", name := "a", memo := "", address := "",
             latitude := "35", longitude := "139", tabId := "frequent",
             createdAt := 5, updatedAt := 5 }] =
        List.filter (fun p => p.tabId = "frequent")
          [{ id := "1", name := "a", memo := "", address := "",
             latitude := "35", longitude := "139", tabId := "frequent",
             createdAt := 5, updatedAt := 5 }]) ∧
    (filterByTab "frequent"
        [{ id := "1", name := "a", memo := "", address := "",
           latitude := "35", longitude := "139", tabId := "frequent",
           createdAt := 5, updatedAt := 5 }]).Sublist
      [{ id := "1", name := "a", memo := "", address := "",
         latitude := "35", longitude := "139", tabId := "frequent",
         createdAt := 5, updatedAt := 5 }]) :=
  ⟨by decide, filterByTab_spec "frequent" _⟩

theorem takeDigits_append {ds : List Char} (hd : ds.all Char.isDigit = true)
    (l : List Char) : takeDigits ds.length (ds ++ l) = some l := by
  induction ds with
  | nil => rfl
  | cons d ds ih =>
    simp only [List.all_cons, Bool.and_eq_true] at hd
    simp only [List.length_cons, List.cons_append, takeDigits, hd.1, if_true]
    exact ih hd.2

theorem string_toList_mk (l : List Char) : (String.mk l).toList = l := rfl

/-- C4: The reverse-geocode address normalization deletes a leading country
token, an optional separator and postal mark, a three-digit group, an
optional hyphen, a four-digit group, and trailing whitespace; in
particular it maps the spec sample formatted address to the expected
normalized address. -/
theorem stripJapanPostal_spec (a b rest : List Char) (useHyphen : Bool)
    (ha : a.length = 3) (had : a.all Char.isDigit = true)
    (hb : b.length = 4) (hbd : b.all Char.isDigit = true)
    (hrest : ∀ c, rest.head? = some c → jsWhitespace c = false) :
    stripJapanPostal (String.mk ('日' :: '本' :: '、' :: '〒' ::
        (a ++ ((if useHyphen then ['-'] else []) ++ (b ++ ' ' :: rest))))) =
      String.mk rest ∧
    stripJapanPostal "日本、〒100-0001 東京都千代田区千代田1-1" =
      "東京都千代田区千代田1-1" := by
  refine ⟨?_, by decide⟩
  have hhyph : dropOptChar '-'
      ((if useHyphen then ['-'] else []) ++ (b ++ ' ' :: rest)) =
      b ++ ' ' :: rest := by
    cases useHyphen
    · simp only [Bool.false_eq_true, if_false, List.nil_append]
      cases b with
      | nil => simp at hb
      | cons b1 bs =>
        have hb1 : b1.isDigit = true := by
          simp only [List.all_cons, Bool.and_eq_true] at hbd
          exact hbd.1
        have hne : b1 ≠ '-' := by
          intro he
          rw [he] at hb1
          exact absurd hb1 (by decide)
        simp [dropOptChar, hne]
    · simp [dropOptChar]
  have hdrop : (' ' :: rest).dropWhile jsWhitespace = rest := by
    rw [List.dropWhile_cons, if_pos (by decide : jsWhitespace ' ' = true)]
    cases rest with
    | nil => rfl
    | cons r rs =>
      rw [List.dropWhile_cons, if_neg]
      simp [hrest r rfl]
  have hchars : stripJapanPostalChars ('日' :: '本' :: '、' :: '〒' ::
      (a ++ ((if useHyphen then ['-'] else []) ++ (b ++ ' ' :: rest)))) =
      some rest := by
    simp only [stripJapanPostalChars]
    rw [show dropOptChar '、' ('、' :: '〒' ::
        (a ++ ((if useHyphen then ['-'] else []) ++ (b ++ ' ' :: rest)))) =
        '〒' :: (a ++ ((if useHyphen then ['-'] else []) ++ (b ++ ' ' :: rest)))
      from by simp [dropOptChar]]
    rw [show dropOptChar '〒'
        ('〒' :: (a ++ ((if useHyphen then ['-'] else []) ++ (b ++ ' ' :: rest)))) =
        a ++ ((if useHyphen then ['-'] else []) ++ (b ++ ' ' :: rest))
      from by simp [dropOptChar]]
    rw [show (3 : Nat) = a.length from ha.symm, takeDigits_append had]
    simp only [Option.bind_some, Option.some_bind]
    rw [hhyph, show (4 : Nat) = b.length from hb.symm, takeDigits_append hbd]
    simp only [Option.map_some, Option.map_some']
    rw [hdrop]
    simp
  unfold stripJapanPostal
  rw [string_toList_mk, hchars]

/-- Witness for C4: the theorem applied at the concrete postal prefix
`100-0001` with an empty tail, together with the spec sample. -/
theorem stripJapanPostal_spec_witness :
    (['1', '0', '0'] : List Char).length = 3 ∧
    (['1', '0', '0'] : List Char).all Char.isDigit = true ∧
    (['0', '0', '0', '1'] : List Char).length = 4 ∧
    (['0', '0', '0', '1'] : List Char).all Char.isDigit = true ∧
    (∀ c, ([] : List Char).head? = some c → jsWhitespace c = false) ∧
    (stripJapanPostal (String.mk ('日' :: '本' :: '、' :: '〒' ::
        (['1', '0', '0'] ++ ((if true then ['-'] else []) ++
          (['0', '0', '0', '1'] ++ ' ' :: ([] : List Char)))))) =
      String.mk ([] : List Char) ∧
     stripJapanPostal "日本、〒100-0001 東京都千代田区千代田1-1" =
      "東京都千代田区千代田1-1") :=
  ⟨by decide, by decide, by decide, by decide,
    fun _ hc => Option.noConfusion hc,
    stripJapanPostal_spec ['1', '0', '0'] ['0', '0', '0', '1'] [] true
      (by decide) (by decide) (by decide) (by decide)
      (fun _ hc => Option.noConfusion hc)⟩

/-- C5 counterexample: at a concrete input where the fetch rejects (any
network failure), `reverseGeocode` propagates the rejection instead of
resolving with the coordinate fallback, so it does not hold that it never
rejects. -/
theorem reverseGeocode_rejects_on_network_failure :
    reverseGeocode "35.000000" "139.000000" (Except.error ()) =
      Except.error () := rfl

/-- C5 amended: when the fetch and body parse succeed but the response
status is not "OK" or the result list is empty, `reverseGeocode` resolves
with the plain coordinate-string fallback; a rejected fetch, however,
propagates to the caller. -/
theorem reverseGeocode_fallback_spec (latFixed lngFixed : String)
    (data : GeocodeResponse)
    (h : data.status ≠ "OK" ∨ data.results = []) :
    reverseGeocode latFixed lngFixed (Except.ok data) =
      Except.ok { address := latFixed ++ ", " ++ lngFixed,
                  placeName := none } ∧
    reverseGeocode latFixed lngFixed (Except.error ()) = Except.error () := by
  refine ⟨?_, rfl⟩
  simp only [reverseGeocode]
  rw [if_neg]
  intro hc
  rcases h with h | h
  · exact h hc.1
  · exact hc.2 h

/-- Witness for C5 (amended) at a concrete zero-result response. -/
theorem reverseGeocode_fallback_spec_witness :
    (({ status := "ZERO_RESULTS", results := [] } : GeocodeResponse).status ≠
        "OK" ∨
      ({ status := "ZERO_RESULTS", results := [] } : GeocodeResponse).results =
        []) ∧
    (reverseGeocode "35.000000" "139.000000"
        (Except.ok { status := "ZERO_RESULTS", results := [] }) =
      Except.ok { address := "35.000000" ++ ", " ++ "139.000000",
                  placeName := none } ∧
     reverseGeocode "35.000000" "139.000000" (Except.error ()) =
      Except.error ()) :=
  ⟨Or.inl (by decide),
    reverseGeocode_fallback_spec "35.000000" "139.000000"
      { status := "ZERO_RESULTS", results := [] } (Or.inl (by decide))⟩

/-- C9: Whenever the cleanup capability is absent (no API key), the
external call fails or returns a non-ok response, the response carries no
text, or the trimmed text is empty, the voice-input pipeline returns the
raw transcript unchanged — cleanup never gates the result. -/
theorem processWithGemini_passthrough (apiKey rawText : String)
    (outcome : GeminiOutcome)
    (h : apiKey = "" ∨ outcome = .failure ∨ outcome = .httpError ∨
      outcome = .ok none ∨ ∃ s, outcome = .ok (some s) ∧ jsTrim s = "") :
    processWithGemini apiKey rawText outcome = rawText := by
  by_cases hk : apiKey = ""
  · simp [processWithGemini, hk]
  · rcases h with h | h | h | h | ⟨s, hs, hts⟩
    · exact absurd h hk
    · subst h; simp [processWithGemini, hk]
    · subst h; simp [processWithGemini, hk]
    · subst h; simp [processWithGemini, hk]
    · subst hs; simp [processWithGemini, hk, hts]

/-- Witness for C9: a failing cleanup call passes a concrete raw
transcript through unchanged. -/
theorem processWithGemini_passthrough_witness :
    (("key" : String) = "" ∨ GeminiOutcome.failure = GeminiOutcome.failure ∨
      GeminiOutcome.failure = GeminiOutcome.httpError ∨
      GeminiOutcome.failure = GeminiOutcome.ok none ∨
      ∃ s, GeminiOutcome.failure = GeminiOutcome.ok (some s) ∧
        jsTrim s = "") ∧
    processWithGemini "key" "えーと明日は買い物" GeminiOutcome.failure =
      "えーと明日は買い物" :=
  ⟨Or.inr (Or.inl rfl),
    processWithGemini_passthrough "key" "えーと明日は買い物"
      GeminiOutcome.failure (Or.inr (Or.inl rfl))⟩

/-- C8: When the display name is empty after trimming, `handleSave` records
the validation error on the name field and performs no storage call, so the
persisted state is unchanged. -/
theorem handleSave_empty_name_aborts (isNew : Bool) (id : Option String)
    (form : PlaceForm) (h : jsTrim form.name = "") :
    (handleSave isNew id form).1 = some "場所の登録名を入力してください" ∧
    (handleSave isNew id form).2 = none ∧
    ∀ now newId store,
      applySaveAction now newId (handleSave isNew id form).2 store = store := by
  simp [handleSave, validate, h, applySaveAction]

/-- Witness for C8 at a concrete whitespace-only name. -/
theorem handleSave_empty_name_aborts_witness :
    jsTrim "   " = "" ∧
    ((handleSave true none
        { name := "   ", memo := "m", address := "a", postalCode := "",
          latitude := "35", longitude := "139", tabId := "frequent" }).1 =
          some "場所の登録名を入力してください" ∧
     (handleSave true none
        { name := "   ", memo := "m", address := "a", postalCode := "",
          latitude := "35", longitude := "139", tabId := "frequent" }).2 =
          none ∧
     ∀ now newId store,
       applySaveAction now newId
         (handleSave true none
           { name := "   ", memo := "m", address := "a", postalCode := "",
             latitude := "35", longitude := "139",
             tabId := "frequent" }).2 store = store) :=
  ⟨by decide,
    handleSave_empty_name_aborts true none
      { name := "   ", memo := "m", address := "a", postalCode := "",
        latitude := "35", longitude := "139", tabId := "frequent" }
      (by decide)⟩

/-- C7 counterexample: the seeded persisted tab collection itself contains
a record whose identifier is the synthetic "all" value — it is the first
entry of `DEFAULT_TABS` — so it is not the case that no reachable persisted
state stores an "all" category record. -/
theorem initialTabs_contains_all :
    initialTabs.any (fun t => t.id = "all") = true := by decide

/-- C7 amended: the synthetic "all" category is stored as a real record (it
is part of the seeded default tab collection); consumers that need only
real categories remove it at read time, and the PlacePage load filter
yields a collection with no "all" record for every input. -/
theorem allTab_stored_but_filtered :
    initialTabs.any (fun t => t.id = "all") = true ∧
    ∀ tabs : List Tab,
      (loadDataTabs tabs).all (fun t => t.id ≠ "all") = true := by
  refine ⟨by decide, fun tabs => ?_⟩
  rw [List.all_eq_true]
  intro t ht
  exact (List.mem_filter.mp ht).2

/-- C6 counterexample: after the stale completion the current query is
"Osaka Castle", yet the suggestions shown are the results of the earlier
"Tokyo Tower" request — the stale response was applied, not discarded. -/
theorem staleResponse_applied :
    (staleTrace.foldl searchStep initialSearchState).query = "Osaka Castle" ∧
    (staleTrace.foldl searchStep initialSearchState).suggestions =
      [{ text := "東京タワー", description := "日本、東京都港区芝公園",
         placeId := "tokyo-tower" }] := by decide

/-- C6 amended: a completed suggestion request is applied unconditionally,
even when its input no longer equals the current input value: the
completion step overwrites the suggestion list with the response's results
and leaves the query unchanged; the code never compares the completed
request's input with the current input (only a debounced call not yet
issued is cancelled by later input). -/
theorem searchStep_complete_unconditional (s : SearchState)
    (reqInput : String) (results : List Suggestion)
    (h : reqInput ≠ s.query) :
    (searchStep s (.complete reqInput results)).suggestions = results ∧
    (searchStep s (.complete reqInput results)).query = s.query ∧
    (searchStep s (.complete reqInput results)).query ≠ reqInput :=
  ⟨rfl, rfl, fun he => h (he ▸ rfl)⟩

/-- Witness for C6 (amended) at the spec scenario's stale completion. -/
theorem searchStep_complete_unconditional_witness :
    ("Tokyo Tower" : String) ≠
      ({ query := "Osaka Castle", suggestions := [], pending := none,
         inFlight := ["Tokyo Tower"], isSearching := true } :
        SearchState).query ∧
    ((searchStep
        { query := "Osaka Castle", suggestions := [], pending := none,
          inFlight := ["Tokyo Tower"], isSearching := true }
        (.complete "Tokyo Tower"
          [{ text := "東京タワー", description := "日本、東京都港区芝公園",
             placeId := "tokyo-tower" }])).suggestions =
      [{ text := "東京タワー", description := "日本、東京都港区芝公園",
         placeId := "tokyo-tower" }] ∧
     (searchStep
        { query := "Osaka Castle", suggestions := [], pending := none,
          inFlight := ["Tokyo Tower"], isSearching := true }
        (.complete "Tokyo Tower"
          [{ text := "東京タワー", description := "日本、東京都港区芝公園",
             placeId := "tokyo-tower" }])).query =
      ({ query := "Osaka Castle", suggestions := [], pending := none,
         inFlight := ["Tokyo Tower"], isSearching := true } :
        SearchState).query ∧
     (searchStep
        { query := "Osaka Castle", suggestions := [], pending := none,
          inFlight := ["Tokyo Tower"], isSearching := true }
        (.complete "Tokyo Tower"
          [{ text := "東京タワー", description := "日本、東京都港区芝公園",
             placeId := "tokyo-tower" }])).query ≠ "Tokyo Tower") :=
  ⟨by decide,
    searchStep_complete_unconditional
      { query := "Osaka Castle", suggestions := [], pending := none,
        inFlight := ["Tokyo Tower"], isSearching := true }
      "Tokyo Tower"
      [{ text := "東京タワー", description := "日本、東京都港区芝公園",
         placeId := "tokyo-tower" }] (by decide)⟩
